import Mathlib

namespace TikTokBot

/-!
Verification of the multi-provider media-download orchestrator of the
my-tiktok-bot repository (src/downloader.py, src/cobalt_api.py,
src/facebook_api.py), against its natural-language specification.

The Python code is shallowly embedded: pure string manipulation is
translated to functions on `List Char` / `String`; the network, the
filesystem and the external yt-dlp library are abstracted as explicit
oracle inputs describing what each external call returns; Python
exceptions are modelled with `Except`; Python dicts that carry yt-dlp
options are modelled as association lists with lookup semantics.
-/

/-- Lowercase the characters of a string, as Python `str.lower` does for
ASCII characters (URL domain matching only involves ASCII). -/
def lowerL (l : List Char) : List Char := l.map Char.toLower

/-- `leadMatch needle hay` is true when `hay` starts with `needle`
(Python `str.startswith`). -/
def leadMatch : List Char → List Char → Bool
  | [], _ => true
  | _ :: _, [] => false
  | a :: as, b :: bs => a == b && leadMatch as bs

/-- `occursIn needle hay` is true when `needle` occurs as a contiguous
substring of `hay` (Python `needle in hay`). -/
def occursIn (needle : List Char) : List Char → Bool
  | [] => needle == []
  | h :: t => leadMatch needle (h :: t) || occursIn needle t

/-- `endMatch needle hay` is true when `hay` ends with `needle`
(Python `str.endswith`). -/
def endMatch (needle hay : List Char) : Bool :=
  leadMatch needle.reverse hay.reverse

/-- Domain lists tried by `Downloader._detect_platform`, in source order. -/
def youtubeDoms : List String := ["youtube.com", "youtu.be"]

def tiktokDoms : List String := ["tiktok.com", "vm.tiktok.com", "vt.tiktok.com"]

def facebookDoms : List String := ["facebook.com", "fb.watch", "fb.com"]

def instagramDoms : List String := ["instagram.com", "instagr.am"]

def twitterDoms : List String := ["twitter.com", "x.com", "t.co"]

def pinterestDoms : List String := ["pinterest.com", "pin.it"]

/-- Python `any(d in url_lower for d in doms)`. -/
def domHit (u : List Char) (doms : List String) : Bool :=
  doms.any (fun d => occursIn d.data u)

/-- Embedding of `Downloader._detect_platform` (downloader.py lines
132-147): lowercase the URL, then test the domain lists in a fixed
order, substring match anywhere in the URL string. -/
def detectPlatform (url : String) : String :=
  let u := lowerL url.data
  if domHit u youtubeDoms then "youtube"
  else if domHit u tiktokDoms then "tiktok"
  else if domHit u facebookDoms then "facebook"
  else if domHit u instagramDoms then "instagram"
  else if domHit u twitterDoms then "twitter"
  else if domHit u pinterestDoms then "pinterest"
  else "other"

/-! ## yt-dlp option dictionaries (`Downloader._get_opts`)

Python dicts of yt-dlp options are modelled as association lists of
string keys and structured values, with `getKey` as dict lookup.
`setKey` models `d[k] = v` / `d.update({k: v, ...})` entries and
`popKey` models `d.pop(k, None)`; insertion order, which yt-dlp
ignores, is not tracked. -/

/-- Structured value of one yt-dlp option. -/
inductive OVal where
  | s (v : String)
  | n (v : Nat)
  | b (v : Bool)
  | null
  | sl (v : List String)
  | d (v : List (String × OVal))
  | pl (v : List (List (String × OVal)))

abbrev ODict := List (String × OVal)

/-- Remove every binding of key `k`. -/
def eraseKey (k : String) : ODict → ODict
  | [] => []
  | (k', v) :: t => if k' = k then eraseKey k t else (k', v) :: eraseKey k t

/-- Python `d[k] = v` (bindings keep unique keys). -/
def setKey (k : String) (v : OVal) (d : ODict) : ODict :=
  (k, v) :: eraseKey k d

/-- Python `d.pop(k, None)`. -/
def popKey (k : String) (d : ODict) : ODict := eraseKey k d

/-- Python `d.get(k)` / `k in d` support. -/
def getKey (k : String) : ODict → Option OVal
  | [] => none
  | (k', v) :: t => if k = k' then some v else getKey k t

/-- Outbound browser User-Agent string (`Downloader.USER_AGENT`). -/
def userAgent : String :=
  "Mozilla/5.0 (Windows NT 10.0; Win64; x64) AppleWebKit/537.36 (KHTML, like Gecko) Chrome/131.0.0.0 Safari/537.36"

/-- `MAX_FILE_SIZE` from config.py: 49 MB. -/
def MAX_FILE_SIZE : Nat := 49 * 1024 * 1024

/-- TikTok H.264-forcing format selector chain (downloader.py 256-262). -/
def tiktokFormat : String :=
  "bestvideo[vcodec^=avc1][height<=1080][ext=mp4]+bestaudio[ext=m4a]/bestvideo[vcodec^=avc1][ext=mp4]+bestaudio/bestvideo[height<=1080][ext=mp4]+bestaudio[ext=m4a]/best[ext=mp4]/best"

/-- YouTube video format selector chain (downloader.py 334-339). -/
def youtubeVideoFormat : String :=
  "bestvideo[height<=1080][ext=mp4]+bestaudio[ext=m4a]/bestvideo[height<=1080]+bestaudio/best[height<=1080][ext=mp4]/best[ext=mp4]/best"

/-- Base option dict of `_get_opts` (`common_opts`, downloader.py
204-243). The `logger` entry, a Python logger object rather than data,
is omitted. `cookiesFile` is the writable cookies path when
`self._cookies_file` exists on disk. -/
def commonOpts (checkOnly : Bool) (cookiesFile : Option String) : ODict :=
  let base : ODict := [
    ("quiet", .b false), ("no_warnings", .b false), ("noplaylist", .b true),
    ("socket_timeout", .n 30), ("retries", .n 5), ("fragment_retries", .n 5),
    ("verbose", .b true), ("nocheckcertificate", .b true),
    ("http_headers", .d [
      ("User-Agent", .s userAgent),
      ("Accept", .s "text/html,application/xhtml+xml,application/xml;q=0.9,*/*;q=0.8"),
      ("Accept-Language", .s "en-US,en;q=0.9"),
      ("Accept-Encoding", .s "gzip, deflate, br"),
      ("DNT", .s "1"), ("Connection", .s "keep-alive"),
      ("Upgrade-Insecure-Requests", .s "1"), ("Cache-Control", .s "max-age=0")]),
    ("extractor_args", .d [
      ("youtube", .d [
        ("player_client", .sl ["tv", "android_sdkless", "web_safari", "ios", "android"]),
        ("skip", .sl ["dash", "hls"])]),
      ("instagram", .d [("api_hostname", .s "i.instagram.com")])]),
    ("sleep_interval_requests", .n 1), ("ignoreerrors", .b false),
    ("no_color", .b true), ("http_chunk_size", .n (10 * 1024 * 1024))]
  let withOut :=
    if checkOnly then base
    else setKey "max_filesize" (.n MAX_FILE_SIZE)
      (setKey "outtmpl" (.s "downloads/%(id)s.%(ext)s") base)
  match cookiesFile with
  | some p => setKey "cookiefile" (.s p) withOut
  | none => withOut

/-- Platform-specific option overrides of `_get_opts` (downloader.py
247-303). -/
def platformOverrides (platform : String) (checkOnly : Bool) (o : ODict) : ODict :=
  if platform = "youtube" then
    setKey "geo_bypass" (.b true) (setKey "sleep_interval" (.n 1)
      (setKey "age_limit" .null o))
  else if platform = "tiktok" then
    let o := setKey "format" (.s tiktokFormat) o
    if checkOnly then o
    else
      setKey "postprocessor_args"
        (.d [("videoconvertor", .sl ["-vcodec", "libx264", "-acodec", "aac",
          "-crf", "23", "-preset", "fast", "-movflags", "+faststart"])])
        (setKey "postprocessors"
          (.pl [[("key", .s "FFmpegVideoConvertor"), ("preferedformat", .s "mp4")]])
          (setKey "merge_output_format" (.s "mp4") o))
  else if platform = "instagram" then
    setKey "format" (.s "best") (setKey "http_headers" (.d [
      ("User-Agent", .s userAgent), ("Accept", .s "*/*"),
      ("Accept-Language", .s "en-US,en;q=0.9"),
      ("Referer", .s "https://www.instagram.com/"),
      ("Origin", .s "https://www.instagram.com"),
      ("X-IG-App-ID", .s "936619743392459")]) o)
  else if platform = "facebook" then
    setKey "format" (.s "best") (setKey "http_headers" (.d [
      ("User-Agent", .s userAgent),
      ("Referer", .s "https://www.facebook.com/"),
      ("Origin", .s "https://www.facebook.com")]) o)
  else o

/-- Download-type overrides of `_get_opts` (downloader.py 309-341); the
audio block runs last and clears video-specific options. -/
def typeOverrides (downloadType platform : String) (checkOnly : Bool) (o : ODict) : ODict :=
  if downloadType = "audio" then
    let o := setKey "format" (.s "bestaudio[ext=m4a]/bestaudio[ext=webm]/bestaudio/best") o
    let o := setKey "postprocessors"
      (.pl (if checkOnly then []
        else [[("key", .s "FFmpegExtractAudio"), ("preferredcodec", .s "mp3"),
          ("preferredquality", .s "192")]])) o
    let o := setKey "postprocessor_args" (.d []) o
    let o := popKey "merge_output_format" o
    let o := popKey "max_filesize" o
    setKey "keepvideo" (.b false) (setKey "prefer_ffmpeg" (.b true) o)
  else if platform = "youtube" ∧ downloadType = "video" then
    let o := setKey "format" (.s youtubeVideoFormat) o
    if checkOnly then o else setKey "merge_output_format" (.s "mp4") o
  else o

/-- Embedding of `Downloader._get_opts` (downloader.py 187-343). -/
def getOpts (downloadType url : String) (checkOnly : Bool)
    (cookiesFile : Option String) : ODict :=
  let platform := detectPlatform url
  typeOverrides downloadType platform checkOnly
    (platformOverrides platform checkOnly (commonOpts checkOnly cookiesFile))

/-! ## Result dictionaries and the blocking download (`_download_sync`) -/

/-- Result dictionary returned by every provider (`{"status": ...}`
pattern of the source); absent dict fields are modelled by defaults. -/
structure DlResult where
  status : String
  message : String := ""
  filePath : Option String := none
  filePaths : List String := []
  title : String := ""
  duration : Nat := 0
  uploader : String := ""
deriving DecidableEq

/-- Metadata of an extracted item, with the source's `info.get(...)`
defaults already applied. -/
structure MediaInfo where
  title : String := "Unknown"
  duration : Nat := 0
  uploader : String := "Unknown"
deriving DecidableEq

/-- Outcome of one `ydl.extract_info(url, download=True)` call. -/
inductive YdlOutcome where
  /-- `yt_dlp.utils.DownloadError` raised with this message. -/
  | dlError (msg : String)
  /-- any other exception raised, with its string rendering. -/
  | exc (msg : String)
  /-- the call returned: `none` models a falsy info dict. -/
  | info (i : Option MediaInfo)

/-- Observable behaviour of one yt-dlp engine invocation: the library
is external, so the embedding treats what it did as oracle data. -/
structure YdlRun where
  outcome : YdlOutcome
  /-- download directory after the call: path to size in bytes. -/
  fs : String → Option Nat
  /-- `ydl.prepare_filename(info)`. -/
  preparedName : String
  /-- newest download-directory file modified within 60 s, if any
  (the last-resort filename fallback of downloader.py 443-455). -/
  latestRecent : Option String

/-- Python `str.strip()`. -/
def stripStr (s : String) : String :=
  ⟨((s.data.dropWhile Char.isWhitespace).reverse.dropWhile Char.isWhitespace).reverse⟩

/-- Base of `os.path.splitext`: the part before the final dot. -/
def splitExtBase (s : String) : String :=
  if '.' ∈ s.data then ⟨((s.data.reverse.dropWhile (· ≠ '.')).tail).reverse⟩ else s

/-- Error classification of `_download_sync` for a
`yt_dlp.utils.DownloadError` message (downloader.py 473-504). -/
def classifyDlError (msg : String) : DlResult :=
  if occursIn "File is larger than".data msg.data ||
     occursIn "too large".data (lowerL msg.data) then
    { status := "error", message := "File too large (>49MB)" }
  else if occursIn "Video unavailable".data msg.data ||
     occursIn "Private video".data msg.data then
    { status := "error", message := "Video unavailable or private" }
  else if occursIn "Sign in to confirm".data msg.data then
    { status := "error", message := "Age-restricted. Need cookies.txt" }
  else if occursIn "HTTP Error 429".data msg.data then
    { status := "error", message := "Rate limited. Try in 5 minutes" }
  else if occursIn "HTTP Error 403".data msg.data then
    { status := "error", message := "Access forbidden. May be region-blocked" }
  else if occursIn "Failed to extract any player response".data msg.data then
    { status := "error",
      message := "YouTube បានប្តូររចនាសម្ព័ន្ធ។ សូមព្យាយាមម្ដងទៀតក្រោយ។" }
  else
    { status := "error", message := "Download failed: " ++ ⟨msg.data.take 200⟩ }

/-- Extension that postprocessing renames to: first postprocessor's
`preferredcodec` or `preferedformat`, else `"mp4"` (downloader.py
415-426). Python `or` skips falsy (empty) strings. -/
def ppExt (pps : List ODict) : String :=
  match pps with
  | [] => "mp4"
  | pp :: _ =>
    let pick := fun k (alt : String) =>
      match getKey k pp with
      | some (.s v) => if v = "" then alt else v
      | _ => alt
    ⟨lowerL (stripStr (pick "preferredcodec" (pick "preferedformat" "mp4"))).data⟩

/-- Filename predicted after postprocessing (downloader.py 412-426):
when postprocessors are configured, the prepared name's extension is
replaced by the postprocessor target extension. -/
def resolveFname (opts : ODict) (run : YdlRun) : String :=
  match getKey "postprocessors" opts with
  | some (.pl (pp :: pps)) => splitExtBase run.preparedName ++ "." ++ ppExt (pp :: pps)
  | _ => run.preparedName

/-- On-disk filename resolution (downloader.py 428-463): the predicted
name if it exists, else the first existing sibling-extension
candidate, else the newest recent file in the download directory. -/
def resolveFound (opts : ODict) (run : YdlRun) : Option String :=
  let fname := resolveFname opts run
  if (run.fs fname).isSome then some fname
  else
    let base := splitExtBase fname
    match ["mp3", "mp4", "m4a", "opus", "webm"].find?
        (fun e => (run.fs (base ++ "." ++ e)).isSome) with
    | some e => some (base ++ "." ++ e)
    | none => run.latestRecent

/-- Embedding of `Downloader._download_sync` (downloader.py 399-508):
run the extractor, resolve the on-disk filename (postprocessing may
change the extension; sibling extensions and the newest-recent-file
fallback are searched before failing), classify errors. -/
def downloadSync (opts : ODict) (run : YdlRun) : DlResult :=
  match run.outcome with
  | .dlError msg => classifyDlError msg
  | .exc msg => { status := "error", message := "Error: " ++ ⟨msg.data.take 200⟩ }
  | .info none => { status := "error", message := "Cannot extract video info" }
  | .info (some i) =>
    match resolveFound opts run with
    | none => { status := "error", message := "File not found after download" }
    | some f =>
      { status := "success", filePath := some f, title := i.title,
        duration := i.duration, uploader := i.uploader }

/-! ## Direct-Fetch Client and scraper-adapter file transfer

The download directory is modelled as an association list from path to
file size; HTTP responses and their chunk streams are oracle data. A
Python exception propagating out of a function is `Except.error`,
carrying the filesystem state at the moment of the raise. -/

/-- Filesystem state: destination path to size in bytes. -/
abbrev Fs := List (String × Nat)

def fsErase (k : String) : Fs → Fs
  | [] => []
  | (k', v) :: t => if k' = k then fsErase k t else (k', v) :: fsErase k t

/-- Write/overwrite a file of the given size. -/
def fsSet (k : String) (v : Nat) (fs : Fs) : Fs := (k, v) :: fsErase k fs

def fsGet (k : String) : Fs → Option Nat
  | [] => none
  | (k', v) :: t => if k = k' then some v else fsGet k t

/-- One event of a chunked HTTP body stream. -/
inductive StreamEvent where
  | chunk (size : Nat)
  | netErr
deriving DecidableEq

/-- Python exception escaping a function. -/
inductive PyErr where
  | netError
deriving DecidableEq

/-- Observable behaviour of the HEAD + streaming GET pair issued by
`_download_direct_mp4` for one media URL. -/
structure HttpMedia where
  /-- HEAD outcome: `.error` models an exception (which the source
  catches); otherwise the optional Content-Length header value. -/
  headContentLength : Except Unit (Option String)
  /-- status code of the streaming GET response. -/
  getStatus : Nat
  /-- body events of `iter_chunked`. -/
  stream : List StreamEvent

/-- Python `str.isdigit` for ASCII. -/
def isDigits (s : String) : Bool := s ≠ "" && s.data.all Char.isDigit

/-- Python `int(s)` for a digit string. -/
def strToNat (s : String) : Nat := s.toNat?.getD 0

/-- Abort message of the mid-stream size guard of
`_download_direct_mp4` (the `:.0f` MB rendering of the 49 MB limit). -/
def directTooLargeMsg : String := "File too large (limit: 49MB)"

/-- Streaming loop of `_download_direct_mp4` (downloader.py 615-633):
empty chunks are skipped, the running total is checked BEFORE writing
the chunk, an overflow deletes the partial file and returns the
too-large error, and a network failure mid-stream raises (the loop is
not wrapped in try/except). -/
def streamChunks (outPath : String) (maxSize : Nat) :
    List StreamEvent → Nat → Fs → Except (PyErr × Fs) (Option DlResult × Fs)
  | [], _, fs => .ok (none, fs)
  | .chunk 0 :: rest, total, fs => streamChunks outPath maxSize rest total fs
  | .chunk (n + 1) :: rest, total, fs =>
    let total' := total + (n + 1)
    if maxSize < total' then
      .ok (some { status := "error", message := directTooLargeMsg }, fsErase outPath fs)
    else
      streamChunks outPath maxSize rest total'
        (fsSet outPath ((fsGet outPath fs).getD 0 + (n + 1)) fs)
  | .netErr :: _, _, fs => .error (.netError, fs)

/-- Embedding of `Downloader._download_direct_mp4` (downloader.py
583-641). Only the HEAD pre-check is inside try/except; an exception
raised by the streaming GET escapes to the caller. The HEAD abort
message's float-formatted sizes are abstracted to a fixed string. -/
def downloadDirectMp4 (o : HttpMedia) (outPath title : String) (fs : Fs) :
    Except (PyErr × Fs) (DlResult × Fs) :=
  let headAbort : Bool :=
    match o.headContentLength with
    | .error _ => false
    | .ok none => false
    | .ok (some s) => isDigits s && decide (MAX_FILE_SIZE < strToNat s)
  if headAbort then
    .ok ({ status := "error", message := "File too large (HEAD)" }, fs)
  else if 400 ≤ o.getStatus then
    .ok ({ status := "error",
           message := "HTTP " ++ toString o.getStatus ++ " while fetching media" }, fs)
  else
    match streamChunks outPath MAX_FILE_SIZE o.stream 0 (fsSet outPath 0 fs) with
    | .error e => .error e
    | .ok (some abort, fs') => .ok (abort, fs')
    | .ok (none, fs') =>
      .ok ({ status := "success", filePath := some outPath,
             title := if title = "" then "Pinterest Video" else title,
             duration := 0, uploader := "Pinterest" }, fs')

/-- GET response seen by the scraper-adapter `_download_file`. -/
structure HttpGetResp where
  status : Nat
  contentLength : Option String
  stream : List StreamEvent

/-- Streaming loop of the scraper-adapter `_download_file`
(cobalt_api.py 48-55, facebook_api.py 42-49): the running total is
checked before writing, but an overflow returns `false` WITHOUT
deleting the partially-written file; a mid-stream network failure is
caught by the function-wide try/except and also returns `false`,
leaving the partial file behind. -/
def adapterStream (filename : String) (limit : Nat) :
    List StreamEvent → Nat → Fs → Bool × Fs
  | [], _, fs => (true, fs)
  | .chunk n :: rest, total, fs =>
    let total' := total + n
    if limit < total' then (false, fs)
    else adapterStream filename limit rest total'
      (fsSet filename ((fsGet filename fs).getD 0 + n) fs)
  | .netErr :: _, _, fs => (false, fs)

/-- Embedding of `CobaltDownloader._download_file` (cobalt_api.py
32-62) and the identical `FacebookDownloader._download_file`
(facebook_api.py 26-56): HTTP status check, Content-Length pre-check
against the hard 49 MB limit, then the streaming loop. The whole body
is wrapped in try/except, so it never raises. -/
def adapterDownloadFile (o : HttpGetResp) (filename : String) (fs : Fs) : Bool × Fs :=
  if o.status ≠ 200 then (false, fs)
  else
    let clAbort : Bool :=
      match o.contentLength with
      | none => false
      | some s => s ≠ "" && (!isDigits s || decide (49 * 1024 * 1024 < strToNat s))
    if clAbort then (false, fs)
    else adapterStream filename (49 * 1024 * 1024) o.stream 0 (fsSet filename 0 fs)

/-! ## Blocking Extraction Engine retry loop (`download_with_ytdlp`) -/

/-- Observable behaviour of one engine invocation. -/
structure EngineOracle where
  /-- TikTok slideshow branch: `some r` means the probe detected a
  photo slideshow and the slideshow download returned `r`; `none`
  means not a slideshow, or the probe failed (that branch catches its
  own exceptions and falls through). -/
  slideshow : Option DlResult
  /-- `_check_size_sync` result (`status` is `"ok"` or `"error"`). -/
  sizeCheck : DlResult
  /-- `_download_sync` outcome for each 1-based attempt number;
  `.error` models an exception escaping the executor call. -/
  attempts : Nat → Except Unit DlResult

/-- Non-retryable message fragments (downloader.py 795-801). -/
def nonRetryable : List String :=
  ["File too large", "unavailable", "private", "Age-restricted", "region-blocked"]

/-- Python `any(err in result["message"] for err in non_retryable)`. -/
def isPermanentMsg (msg : String) : Bool :=
  nonRetryable.any (fun e => occursIn e.data msg.data)

/-- Retry loop of `download_with_ytdlp` (downloader.py 762-818):
success and permanent failures return immediately; an exception on the
last attempt returns "System error"; exhaustion returns the
failed-after message. First argument is the remaining attempt budget,
second the 1-based attempt number. -/
def retryLoop (attempts : Nat → Except Unit DlResult) : Nat → Nat → DlResult
  | 0, _ => { status := "error", message := "Failed after 3 attempts" }
  | remaining + 1, k =>
    match attempts k with
    | .ok r =>
      if r.status = "success" then r
      else if isPermanentMsg r.message then r
      else retryLoop attempts remaining (k + 1)
    | .error _ =>
      if remaining = 0 then { status := "error", message := "System error" }
      else retryLoop attempts remaining (k + 1)

/-- Embedding of `Downloader.download_with_ytdlp` (downloader.py
711-818): TikTok-video slideshow probe first; the pre-flight size
check is skipped for audio and for TikTok; then the retry loop (3
attempts, rotating user agents and YouTube player clients — the
rotation is captured by `attempts` being indexed by attempt number).
YouTube URLs are canonicalized before downloading; the oracle's
attempts describe the extractor's behaviour on that canonical URL. -/
def downloadWithYtdlp (o : EngineOracle) (url ty : String) : DlResult :=
  let platform := detectPlatform url
  let core :=
    if ty = "audio" ∨ platform = "tiktok" then retryLoop o.attempts 3 1
    else if o.sizeCheck.status = "error" then o.sizeCheck
    else retryLoop o.attempts 3 1
  if platform = "tiktok" ∧ ty = "video" then
    match o.slideshow with
    | some r => r
    | none => core
  else core

/-! ## Scraper-adapter chains (cobalt_api.py, facebook_api.py) -/

/-- Aggregate all-methods-failed message of `CobaltDownloader.download`
(cobalt_api.py 281-284). -/
def cobaltAllFailedMsg : String :=
  "Cannot download TikTok video. All methods failed. Video may be private or region-locked."

/-- Embedding of `CobaltDownloader.download` (cobalt_api.py 235-284):
Cobalt API first, audio stops after Cobalt, then SnapTik, then TikWM;
`a`, `b`, `c` are the three adapters' results (each adapter catches
its own exceptions and returns an error dict). -/
def cobaltDownload (a b c : DlResult) (ty : String) : DlResult :=
  if a.status = "success" then a
  else if ty = "audio" then
    { status := "error",
      message := "Audio download not available for TikTok. All APIs failed." }
  else if b.status = "success" then b
  else if c.status = "success" then c
  else { status := "error", message := cobaltAllFailedMsg }

/-- Aggregate all-methods-failed message of
`FacebookDownloader.download` (facebook_api.py 295-305). -/
def fbAllFailedMsg : String :=
  "Cannot download this Facebook video. Possible reasons:\n• Video is private or deleted\n• Age-restricted content\n• Regional restrictions\n• Login required\n\nTry copying the direct video link or use a different video."

/-- Embedding of `FacebookDownloader.download` (facebook_api.py
248-305): audio unsupported; SnapSave, then SaveFrom, then
FbDownloader; all-fail returns the aggregate message (the individual
adapters' error messages are NOT kept). -/
def facebookDownload (a b c : DlResult) (ty : String) : DlResult :=
  if ty = "audio" then
    { status := "error",
      message := "Audio-only download not available for Facebook videos." }
  else if a.status = "success" then a
  else if b.status = "success" then b
  else if c.status = "success" then c
  else { status := "error", message := fbAllFailedMsg }

/-! ## Pinterest branch and the top-level orchestrator -/

/-- Observable behaviour of the Pinterest page scrape
(`_download_pinterest`): redirect resolution and pin-id
canonicalization only select which page is fetched; the regex harvest
of CDN URLs from the fetched HTML is abstracted as the lists below. -/
structure PinOracle where
  /-- whether the HTML page fetch succeeded (its try/except turns an
  exception into an error result). -/
  fetchOk : Bool
  fetchErr : String
  /-- direct `.mp4` CDN URLs found in the page, in scan order. -/
  mp4Candidates : List String
  /-- `.m3u8` manifest URLs found when no mp4 was. -/
  m3u8Candidates : List String
  /-- content of the page's title tag, when present. -/
  pageTitle : Option String
  /-- HEAD/GET behaviour of the first mp4 candidate. -/
  media : HttpMedia
  /-- the random uuid destination path chosen for the fetch. -/
  outPath : String

/-- Embedding of `Downloader._download_pinterest` (downloader.py
643-705): video-only, page fetch, direct-mp4 fetch of the first
candidate, m3u8 hand-off to the engine, else the blocking message. -/
def downloadPinterest (eng : EngineOracle) (o : PinOracle) (ty : String)
    (fs : Fs) : Except (PyErr × Fs) (DlResult × Fs) :=
  if ty ≠ "video" then
    .ok ({ status := "error", message := "Pinterest supports video only" }, fs)
  else if !o.fetchOk then
    .ok ({ status := "error", message := "Pinterest fetch failed: " ++ o.fetchErr }, fs)
  else
    let title := match o.pageTitle with
      | some t => stripStr t
      | none => "Pinterest Video"
    match o.mp4Candidates with
    | _ :: _ => downloadDirectMp4 o.media o.outPath title fs
    | [] =>
      match o.m3u8Candidates with
      | m :: _ => .ok (downloadWithYtdlp eng m ty, fs)
      | [] =>
        .ok ({ status := "error",
               message := "Pinterest is blocking automated downloads. Try again later or provide cookies.txt." }, fs)

/-- Provider oracles consumed by one `Downloader.download` call. -/
structure Orc where
  /-- `cobalt_downloader.download` outcome (`.error` models an
  ImportError or any other exception, which the caller catches). -/
  cobalt : Except Unit DlResult
  /-- `facebook_downloader.download` outcome. -/
  facebook : Except Unit DlResult
  engine : EngineOracle
  pin : PinOracle

/-- Embedding of the public entry point `Downloader.download`
(downloader.py 824-887). Besides the result, the returned list records
which providers were attempted, in order (`"cobalt"` stands for the
whole CobaltDownloader chain, `"facebook_api"` for the Facebook
Multi-API chain, `"ytdlp"` for the Blocking Extraction Engine,
`"pinterest_direct"` for the Pinterest page-scrape branch). -/
def download (o : Orc) (url ty : String) (fs : Fs) :
    Except (PyErr × Fs) (DlResult × List String × Fs) :=
  let platform := detectPlatform url
  if platform = "tiktok" then
    if ty = "audio" then
      .ok (downloadWithYtdlp o.engine url ty, ["ytdlp"], fs)
    else
      match o.cobalt with
      | .ok r =>
        if r.status = "success" then .ok (r, ["cobalt"], fs)
        else .ok (downloadWithYtdlp o.engine url ty, ["cobalt", "ytdlp"], fs)
      | .error _ => .ok (downloadWithYtdlp o.engine url ty, ["cobalt", "ytdlp"], fs)
  else if platform = "facebook" then
    match o.facebook with
    | .ok r =>
      if r.status = "success" then .ok (r, ["facebook_api"], fs)
      else
        let y := downloadWithYtdlp o.engine url ty
        .ok (if y.status = "success" then y else r, ["facebook_api", "ytdlp"], fs)
    | .error _ => .ok (downloadWithYtdlp o.engine url ty, ["facebook_api", "ytdlp"], fs)
  else if platform = "pinterest" then
    match downloadPinterest o.engine o.pin ty fs with
    | .error e => .error e
    | .ok (r, fs') => .ok (r, ["pinterest_direct"], fs')
  else
    .ok (downloadWithYtdlp o.engine url ty, ["ytdlp"], fs)

/-! ## Concrete provider behaviours used as test inputs -/

/-- Per-adapter failure results with the messages the source produces. -/
def cobaltApiFail : DlResult := { status := "error", message := "All Cobalt endpoints failed" }

def snaptikFail : DlResult := { status := "error", message := "SnapTik failed" }

def tikwmFail : DlResult := { status := "error", message := "TikWM failed" }

def snapsaveFail : DlResult := { status := "error", message := "No download link" }

def savefromFail : DlResult := { status := "error", message := "SaveFrom failed" }

def fbdlFail : DlResult := { status := "error", message := "FbDownloader failed" }

/-- A transient engine failure (matches no non-retryable fragment). -/
def genericFail : DlResult := { status := "error", message := "Download failed: timed out" }

/-- Engine whose three attempts all fail transiently. -/
def failingEngine : EngineOracle :=
  { slideshow := none, sizeCheck := { status := "ok" },
    attempts := fun _ => .ok genericFail }

/-- Media transfer that never happens (unused branch filler). -/
def idleMedia : HttpMedia :=
  { headContentLength := .ok none, getStatus := 200, stream := [] }

/-- Pinterest branch filler for non-Pinterest test requests. -/
def idlePin : PinOracle :=
  { fetchOk := false, fetchErr := "", mp4Candidates := [], m3u8Candidates := [],
    pageTitle := none, media := idleMedia, outPath := "downloads/p.mp4" }

/-- Request world for the C1/C6 TikTok runs: the whole scraper chain
fails (yielding the aggregate message, whose text contains the
permanent `private` marker), and the engine also fails transiently. -/
def orcTiktokAllFail : Orc :=
  { cobalt := .ok (cobaltDownload cobaltApiFail snaptikFail tikwmFail "video"),
    facebook := .ok genericFail,
    engine := failingEngine,
    pin := idlePin }

/-- Request world for the C5 Facebook run: all three Facebook scraper
adapters fail (SnapSave's specific message first), and the engine also
fails. -/
def orcFacebookAllFail : Orc :=
  { cobalt := .ok genericFail,
    facebook := .ok (facebookDownload snapsaveFail savefromFail fbdlFail "video"),
    engine := failingEngine,
    pin := idlePin }

/-! ## Exception safety of the Pinterest direct-fetch path (claim C2) -/

/-- Media stream that fails with a network error after one 64 KiB
chunk. -/
def midStreamErrMedia : HttpMedia :=
  { headContentLength := .ok none, getStatus := 200,
    stream := [.chunk 65536, .netErr] }

/-- Pinterest page carrying one direct-mp4 candidate whose transfer
dies mid-stream. -/
def pinMidStreamErr : PinOracle :=
  { fetchOk := true, fetchErr := "",
    mp4Candidates := ["https://v.pinimg.com/videos/a.mp4"],
    m3u8Candidates := [], pageTitle := some "A Pin",
    media := midStreamErrMedia, outPath := "downloads/deadbeef.mp4" }

def orcPinterest : Orc :=
  { cobalt := .ok genericFail, facebook := .ok genericFail,
    engine := failingEngine, pin := pinMidStreamErr }

/-! ## Partial-file cleanup on failure (claim C4) -/

/-- GET response that streams two 30 MB chunks (60 MB total, over the
49 MB cap) with no Content-Length header. -/
def overflowResp : HttpGetResp :=
  { status := 200, contentLength := none,
    stream := [.chunk (30 * 1024 * 1024), .chunk (30 * 1024 * 1024)] }

/-- Media stream whose single chunk overflows the cap, used to witness
the cleanup theorem. -/
def singleOverflowMedia : HttpMedia :=
  { headContentLength := .ok none, getStatus := 200,
    stream := [.chunk (60 * 1024 * 1024)] }

/-! ## Success-path invariant: existence and size cap (claim C3) -/

/-- Engine run that produces a 100 MB mp3: the prepared name's
extension is rewritten by the audio postprocessor, and the resulting
file exists on disk. -/
def bigAudioRun : YdlRun :=
  { outcome := .info (some { title := "Song", duration := 300, uploader := "U" }),
    fs := fun p => if p = "downloads/abc.mp3" then some (100 * 1024 * 1024) else none,
    preparedName := "downloads/abc.webm",
    latestRecent := none }

/-- The audio option set actually built for a TikTok audio request. -/
def audioOptsBig : ODict := getOpts "audio" "https://vm.tiktok.com/ZMa/" false none

def engineBigAudio : EngineOracle :=
  { slideshow := none, sizeCheck := { status := "ok" },
    attempts := fun _ => .ok (downloadSync audioOptsBig bigAudioRun) }

def orcBigAudio : Orc :=
  { cobalt := .ok genericFail, facebook := .ok genericFail,
    engine := engineBigAudio, pin := idlePin }

/-- Small successful run used to witness the invariant theorem. -/
def smallRun : YdlRun :=
  { outcome := .info (some { title := "V", duration := 5, uploader := "U" }),
    fs := fun p => if p = "downloads/x.mp4" then some 5 else none,
    preparedName := "downloads/x.mp4",
    latestRecent := none }

/-! ## URL parsing and YouTube Shorts normalization (claim C9)

`_normalize_youtube_url` is built on Python's `urllib.parse.urlsplit`
and `parse_qs`. They are modelled here for URLs without IPv6 bracket
hosts; the control-character sanitization of recent CPython versions
and the UTF-8 multi-byte handling of `unquote` are omitted (neither
affects the shorts-rewrite logic). -/

/-- Split at the first occurrence of `c`: the part before, and the
part after when `c` occurs at all (Python `str.partition`). -/
def splitFirst (c : Char) : List Char → List Char × Option (List Char)
  | [] => ([], none)
  | a :: rest =>
    if a = c then ([], some rest)
    else
      let p := splitFirst c rest
      (a :: p.1, p.2)

/-- Valid scheme characters (`urllib.parse.scheme_chars`). -/
def isSchemeChar (ch : Char) : Bool :=
  ch.isAlpha || ch.isDigit || ch = '+' || ch = '-' || ch = '.'

/-- Characters ending the netloc portion. -/
def netlocEnd (ch : Char) : Bool := ch = '/' || ch = '?' || ch = '#'

/-- Scheme extraction of `urlsplit`: split at the first ':' when the
part before it is a non-empty valid scheme starting with a letter;
the scheme is lowercased. -/
def schemeSplit (url : List Char) : List Char × List Char :=
  match splitFirst ':' url with
  | (pre, some post) =>
    if pre ≠ [] ∧ (pre.headD ' ').isAlpha = true ∧ pre.all isSchemeChar = true then
      (lowerL pre, post)
    else ([], url)
  | (_, none) => ([], url)

/-- Netloc extraction: after a leading `//`, up to the first `/`, `?`
or `#`. -/
def netlocSplit (rest : List Char) : List Char × List Char :=
  if leadMatch "//".data rest then
    ((rest.drop 2).takeWhile (fun ch => !netlocEnd ch),
     (rest.drop 2).dropWhile (fun ch => !netlocEnd ch))
  else ([], rest)

/-- Fragment split at the first `#`. -/
def fragSplit (rest : List Char) : List Char × List Char :=
  match splitFirst '#' rest with
  | (pre, some post) => (pre, post)
  | (pre, none) => (pre, [])

/-- Query split at the first `?`. -/
def querySplit (rest : List Char) : List Char × List Char :=
  match splitFirst '?' rest with
  | (pre, some post) => (pre, post)
  | (pre, none) => (pre, [])

structure UrlParts where
  scheme : List Char
  netloc : List Char
  path : List Char
  query : List Char
  fragment : List Char

/-- Model of `urllib.parse.urlsplit`: scheme, then netloc, then
fragment, then query, as CPython orders the splits. -/
def urlsplitM (url : List Char) : UrlParts :=
  let s := schemeSplit url
  let n := netlocSplit s.2
  let f := fragSplit n.2
  let q := querySplit f.1
  ⟨s.1, n.1, q.1, q.2, f.2⟩

/-- Model of the `hostname` property: the part of the netloc after the
last `@` and before the first `:`, lowercased (bracketed IPv6 hosts
are out of the model's scope). -/
def hostnameM (netloc : List Char) : List Char :=
  lowerL (((netloc.reverse.takeWhile (· ≠ '@')).reverse).takeWhile (· ≠ ':'))

/-- Hexadecimal digit value. -/
def hexVal (ch : Char) : Option Nat :=
  if '0' ≤ ch ∧ ch ≤ '9' then some (ch.toNat - 48)
  else if 'a' ≤ ch ∧ ch ≤ 'f' then some (ch.toNat - 87)
  else if 'A' ≤ ch ∧ ch ≤ 'F' then some (ch.toNat - 55)
  else none

/-- Percent-decoding of `urllib.parse.unquote` restricted to single
bytes: `%XY` with two hex digits becomes the character of that code;
invalid sequences are left as-is. -/
def pdFuel : Nat → List Char → List Char
  | 0, l => l
  | _ + 1, [] => []
  | fuel + 1, '%' :: a :: b :: rest =>
    match hexVal a, hexVal b with
    | some x, some y => Char.ofNat (16 * x + y) :: pdFuel fuel rest
    | _, _ => '%' :: pdFuel fuel (a :: b :: rest)
  | fuel + 1, ch :: rest => ch :: pdFuel fuel rest

/-- Each step of `pdFuel` consumes at least one character, so fuel
equal to the length runs the scan to completion. -/
def percentDecode (l : List Char) : List Char := pdFuel l.length l

/-- `parse_qsl` value decoding: `+` to space, then percent-decode. -/
def unquotePlus (l : List Char) : List Char :=
  percentDecode (l.map (fun ch => if ch = '+' then ' ' else ch))

/-- First value for key `k` in `parse_qs(query)` (`parse_qs` groups
values per key in order; `get(k, [None])[0]` takes the first): split
on `&`, skip empty segments, split each at the first `=`, skip
segments without `=` or with an empty value, decode names and
values. -/
def qsFirst (k : List Char) (query : List Char) : Option (List Char) :=
  let pairs := (query.splitOn '&').filterMap (fun seg =>
    if seg = [] then none
    else match splitFirst '=' seg with
      | (_, none) => none
      | (name, some value) =>
        if value = [] then none
        else some (unquotePlus name, unquotePlus value))
  (pairs.find? (fun pr => pr.1 == k)).map Prod.snd

/-- Python `if si:` tail of the rewrite: append `&si=<value>` when the
first `si` query value exists and is non-empty. -/
def siSuffix : Option (List Char) → List Char
  | some s => if s = [] then [] else "&si=".data ++ s
  | none => []

/-- Embedding of `Downloader._normalize_youtube_url` (downloader.py
149-166): when the host ends with `youtube.com` and the path starts
with `/shorts/`, rebuild the URL as `watch?v=<id>` preserving a
non-empty `si` parameter; otherwise (and when the video id is empty)
return the URL unchanged. Under the startswith guard, the source's
`path.split("/shorts/", 1)[1]` equals dropping the 8-character
prefix. -/
def normCore (url : List Char) : List Char :=
  let parts := urlsplitM url
  let host := hostnameM parts.netloc
  if endMatch "youtube.com".data host && leadMatch "/shorts/".data parts.path then
    let videoId := (parts.path.drop 8).takeWhile (· ≠ '/')
    if videoId = [] then url
    else
      "https://www.youtube.com/watch?v=".data ++ videoId ++
        siSuffix (qsFirst "si".data parts.query)
  else url

def normalizeYoutubeUrl (url : String) : String := ⟨normCore url.data⟩


/-! ## Theorems -/

/-- The claim C8 fails on the code: `"t.co"` (a twitter domain, tested
before the pinterest domains) is a substring of `"pinterest.com"`
(inside `"…t.com"`), so every URL containing `pinterest.com` is
classified `"twitter"`, not the expected `"pinterest"`. -/
theorem detect_pinterest_is_twitter :
    detectPlatform "https://www.pinterest.com/pin/123/" = "twitter" ∧
    ("twitter" : String) ≠ "pinterest" := by
  constructor
  · decide
  · decide

/-- Claim C8, amended: `classify` is total (always returns one of the
seven tags), is case-insensitive (it depends only on the lowercased
URL), classifies the supported domains and their subdomain variants
(`m.`, `www.`, `vm.`, `vt.`) as expected — except that a URL containing
`pinterest.com` matches the twitter domain `"t.co"` first and yields
`"twitter"` (`pin.it` URLs still yield `"pinterest"`) — and returns
`"other"` when no known domain occurs in the URL. -/
theorem detect_platform_spec :
    (∀ url : String,
      detectPlatform url = "youtube" ∨ detectPlatform url = "tiktok" ∨
      detectPlatform url = "facebook" ∨ detectPlatform url = "instagram" ∨
      detectPlatform url = "twitter" ∨ detectPlatform url = "pinterest" ∨
      detectPlatform url = "other") ∧
    (∀ s t : String, lowerL s.data = lowerL t.data →
      detectPlatform s = detectPlatform t) ∧
    (detectPlatform "https://www.youtube.com/watch?v=a" = "youtube" ∧
     detectPlatform "https://m.youtube.com/watch?v=a" = "youtube" ∧
     detectPlatform "https://youtu.be/a" = "youtube" ∧
     detectPlatform "HTTPS://WWW.TIKTOK.COM/@U/VIDEO/1" = "tiktok" ∧
     detectPlatform "https://m.tiktok.com/v/1" = "tiktok" ∧
     detectPlatform "https://vm.tiktok.com/ZM1/" = "tiktok" ∧
     detectPlatform "https://vt.tiktok.com/ZS1/" = "tiktok" ∧
     detectPlatform "https://www.facebook.com/watch/?v=1" = "facebook" ∧
     detectPlatform "https://m.facebook.com/story.php" = "facebook" ∧
     detectPlatform "https://fb.watch/abc/" = "facebook" ∧
     detectPlatform "https://www.instagram.com/reel/a/" = "instagram" ∧
     detectPlatform "https://pin.it/abc" = "pinterest" ∧
     detectPlatform "https://www.pinterest.com/pin/123/" = "twitter") ∧
    (∀ url : String,
      domHit (lowerL url.data) youtubeDoms = false →
      domHit (lowerL url.data) tiktokDoms = false →
      domHit (lowerL url.data) facebookDoms = false →
      domHit (lowerL url.data) instagramDoms = false →
      domHit (lowerL url.data) twitterDoms = false →
      domHit (lowerL url.data) pinterestDoms = false →
      detectPlatform url = "other") := by
  refine ⟨?_, ?_, by decide, ?_⟩
  · intro url
    unfold detectPlatform
    dsimp only
    split
    · exact Or.inl rfl
    split
    · exact Or.inr (Or.inl rfl)
    split
    · exact Or.inr (Or.inr (Or.inl rfl))
    split
    · exact Or.inr (Or.inr (Or.inr (Or.inl rfl)))
    split
    · exact Or.inr (Or.inr (Or.inr (Or.inr (Or.inl rfl))))
    split
    · exact Or.inr (Or.inr (Or.inr (Or.inr (Or.inr (Or.inl rfl)))))
    · exact Or.inr (Or.inr (Or.inr (Or.inr (Or.inr (Or.inr rfl)))))
  · intro s t h
    unfold detectPlatform
    rw [h]
  · intro url h1 h2 h3 h4 h5 h6
    unfold detectPlatform
    simp [h1, h2, h3, h4, h5, h6]

/-- Witness for `detect_platform_spec`: the unmatched-URL clause applied
to a concrete URL containing no known domain. -/
theorem detect_platform_spec_witness :
    detectPlatform "https://example.org/page" = "other" :=
  detect_platform_spec.2.2.2 "https://example.org/page"
    (by decide) (by decide) (by decide) (by decide) (by decide) (by decide)

/-- Claim C10: classification matches domain strings as substrings
anywhere in the lowercased URL (not only in the host) and applies the
fixed precedence youtube, tiktok, facebook, instagram, twitter,
pinterest; a URL whose path or query contains a platform domain is
classified as that platform, and with two platform domains the one
earlier in the precedence order wins. -/
theorem detect_platform_substring_precedence :
    (detectPlatform "https://example.org/?u=tiktok.com" = "tiktok") ∧
    (detectPlatform "https://tiktok.com/?u=youtube.com" = "youtube") ∧
    (∀ url : String, domHit (lowerL url.data) youtubeDoms = true →
      detectPlatform url = "youtube") ∧
    (∀ url : String, domHit (lowerL url.data) youtubeDoms = false →
      domHit (lowerL url.data) tiktokDoms = true →
      detectPlatform url = "tiktok") ∧
    (∀ url : String, domHit (lowerL url.data) youtubeDoms = false →
      domHit (lowerL url.data) tiktokDoms = false →
      domHit (lowerL url.data) facebookDoms = true →
      detectPlatform url = "facebook") ∧
    (∀ url : String, domHit (lowerL url.data) youtubeDoms = false →
      domHit (lowerL url.data) tiktokDoms = false →
      domHit (lowerL url.data) facebookDoms = false →
      domHit (lowerL url.data) instagramDoms = true →
      detectPlatform url = "instagram") ∧
    (∀ url : String, domHit (lowerL url.data) youtubeDoms = false →
      domHit (lowerL url.data) tiktokDoms = false →
      domHit (lowerL url.data) facebookDoms = false →
      domHit (lowerL url.data) instagramDoms = false →
      domHit (lowerL url.data) twitterDoms = true →
      detectPlatform url = "twitter") ∧
    (∀ url : String, domHit (lowerL url.data) youtubeDoms = false →
      domHit (lowerL url.data) tiktokDoms = false →
      domHit (lowerL url.data) facebookDoms = false →
      domHit (lowerL url.data) instagramDoms = false →
      domHit (lowerL url.data) twitterDoms = false →
      domHit (lowerL url.data) pinterestDoms = true →
      detectPlatform url = "pinterest") := by
  refine ⟨by decide, by decide, ?_, ?_, ?_, ?_, ?_, ?_⟩
  all_goals
    intro url
    unfold detectPlatform
    dsimp only
    intros
    simp [*]

/-- Witness for `detect_platform_substring_precedence`: the precedence
clause for tiktok applied to a concrete URL. -/
theorem detect_platform_substring_precedence_witness :
    detectPlatform "https://vm.tiktok.com/ZMabc/" = "tiktok" :=
  detect_platform_substring_precedence.2.2.2.1 "https://vm.tiktok.com/ZMabc/"
    (by decide) (by decide)

theorem getKey_eraseKey_same (k : String) (d : ODict) :
    getKey k (eraseKey k d) = none := by
  induction d with
  | nil => rfl
  | cons p t ih =>
    obtain ⟨k', v⟩ := p
    by_cases h : k' = k
    · simpa [eraseKey, h] using ih
    · simpa [eraseKey, getKey, h, Ne.symm h] using ih

theorem getKey_eraseKey_other {k k' : String} (h : k ≠ k') (d : ODict) :
    getKey k (eraseKey k' d) = getKey k d := by
  induction d with
  | nil => rfl
  | cons p t ih =>
    obtain ⟨k₀, v⟩ := p
    by_cases hp : k₀ = k'
    · rw [show getKey k ((k₀, v) :: t) = getKey k t by
        simp [getKey, hp ▸ h]]
      simpa [eraseKey, hp] using ih
    · by_cases hk : k = k₀
      · simp [eraseKey, hp, getKey, hk]
      · simpa [eraseKey, hp, getKey, hk] using ih

theorem getKey_setKey_same (k : String) (v : OVal) (d : ODict) :
    getKey k (setKey k v d) = some v := by
  simp [getKey, setKey]

theorem getKey_setKey_other {k k' : String} (h : k ≠ k') (v : OVal) (d : ODict) :
    getKey k (setKey k' v d) = getKey k d := by
  rw [setKey, show getKey k ((k', v) :: eraseKey k' d) = getKey k (eraseKey k' d) by
    simp [getKey, h]]
  exact getKey_eraseKey_other h d

theorem getKey_popKey_same (k : String) (d : ODict) :
    getKey k (popKey k d) = none :=
  getKey_eraseKey_same k d

theorem getKey_popKey_other {k k' : String} (h : k ≠ k') (d : ODict) :
    getKey k (popKey k' d) = getKey k d :=
  getKey_eraseKey_other h d

/-- Claim C7: for every URL (hence every platform branch, TikTok's
forced-codec arguments included), the audio option set has an empty
`postprocessor_args` map and no `merge_output_format` key. -/
theorem audio_opts_no_video_postprocessing :
    ∀ (url : String) (checkOnly : Bool) (cookiesFile : Option String),
      getKey "postprocessor_args" (getOpts "audio" url checkOnly cookiesFile) =
        some (.d []) ∧
      getKey "merge_output_format" (getOpts "audio" url checkOnly cookiesFile) =
        none := by
  intro url co cf
  unfold getOpts typeOverrides
  rw [if_pos rfl]
  constructor
  · rw [getKey_setKey_other (by decide), getKey_setKey_other (by decide),
      getKey_popKey_other (by decide), getKey_popKey_other (by decide),
      getKey_setKey_same]
  · rw [getKey_setKey_other (by decide), getKey_setKey_other (by decide),
      getKey_popKey_other (by decide), getKey_popKey_same]

theorem getKey_maxfs_commonOpts (cf : Option String) :
    getKey "max_filesize" (commonOpts false cf) = some (.n MAX_FILE_SIZE) := by
  cases cf with
  | none => rw [commonOpts]; rfl
  | some p =>
    rw [commonOpts]
    rw [getKey_setKey_other (by decide), if_neg (by decide), getKey_setKey_same]

theorem getKey_maxfs_commonOpts_check (cf : Option String) :
    getKey "max_filesize" (commonOpts true cf) = none := by
  cases cf with
  | none => rw [commonOpts]; rfl
  | some p =>
    rw [commonOpts]
    rw [getKey_setKey_other (by decide), if_pos (by decide)]
    rfl

theorem getKey_maxfs_platformOverrides (p : String) (c : Bool) (o : ODict) :
    getKey "max_filesize" (platformOverrides p c o) = getKey "max_filesize" o := by
  unfold platformOverrides
  split_ifs
  · rw [getKey_setKey_other (by decide), getKey_setKey_other (by decide),
      getKey_setKey_other (by decide)]
  · rw [getKey_setKey_other (by decide)]
  · rw [getKey_setKey_other (by decide), getKey_setKey_other (by decide),
      getKey_setKey_other (by decide), getKey_setKey_other (by decide)]
  · rw [getKey_setKey_other (by decide), getKey_setKey_other (by decide)]
  · rw [getKey_setKey_other (by decide), getKey_setKey_other (by decide)]
  · rfl

theorem getKey_maxfs_video_opts (url : String) (cf : Option String) :
    getKey "max_filesize" (getOpts "video" url false cf) = some (.n MAX_FILE_SIZE) := by
  unfold getOpts typeOverrides
  rw [if_neg (by decide)]
  by_cases h : detectPlatform url = "youtube" ∧ ("video" : String) = "video"
  · rw [if_pos h]
    show getKey "max_filesize"
        (setKey "merge_output_format" (.s "mp4") (setKey "format" (.s youtubeVideoFormat)
          (platformOverrides (detectPlatform url) false (commonOpts false cf)))) = _
    rw [getKey_setKey_other (by decide), getKey_setKey_other (by decide),
      getKey_maxfs_platformOverrides, getKey_maxfs_commonOpts]
  · rw [if_neg h, getKey_maxfs_platformOverrides, getKey_maxfs_commonOpts]

theorem getKey_maxfs_audio_opts (url : String) (co : Bool) (cf : Option String) :
    getKey "max_filesize" (getOpts "audio" url co cf) = none := by
  unfold getOpts typeOverrides
  rw [if_pos rfl]
  show getKey "max_filesize" (setKey "keepvideo" (.b false)
    (setKey "prefer_ffmpeg" (.b true) (popKey "max_filesize" _))) = none
  rw [getKey_setKey_other (by decide), getKey_setKey_other (by decide),
    getKey_popKey_same]

theorem fsGet_fsErase_same (k : String) (fs : Fs) :
    fsGet k (fsErase k fs) = none := by
  induction fs with
  | nil => rfl
  | cons p t ih =>
    obtain ⟨k', v⟩ := p
    by_cases h : k' = k
    · simpa [fsErase, h] using ih
    · simpa [fsErase, fsGet, h, Ne.symm h] using ih

theorem fsGet_fsSet_same (k : String) (v : Nat) (fs : Fs) :
    fsGet k (fsSet k v fs) = some v := by
  simp [fsGet, fsSet]

/-- Counterexample to claim C1: the TikTok scraper chain returns a
failure whose message carries a permanent class marker (`private`),
yet the orchestrator still attempts the next provider (the engine) and
returns the engine's later failure, not the permanent one. -/
theorem permanent_adapter_failure_still_falls_back :
    isPermanentMsg cobaltAllFailedMsg = true ∧
    download orcTiktokAllFail "https://vm.tiktok.com/ZM1/" "video" [] =
      .ok ({ status := "error", message := "Failed after 3 attempts" },
        ["cobalt", "ytdlp"], []) := by
  exact ⟨by decide, rfl⟩

/-- Claim C1, amended: the permanent-failure short-circuit exists only
inside the engine's retry loop — an attempt whose result message
matches the non-retryable list is returned immediately, with no
further attempts — while at the provider-chain level a TikTok scraper
failure of ANY class, permanent ones included, still falls back to the
engine, whose result is what gets returned. -/
theorem permanent_short_circuit_in_retry_loop :
    (∀ (att : Nat → Except Unit DlResult) (r : DlResult) (k n : Nat),
      att k = .ok r → r.status ≠ "success" → isPermanentMsg r.message = true →
      retryLoop att (n + 1) k = r) ∧
    (∀ (o : Orc) (url : String) (r : DlResult) (fs : Fs),
      detectPlatform url = "tiktok" → o.cobalt = .ok r → r.status ≠ "success" →
      download o url "video" fs =
        .ok (downloadWithYtdlp o.engine url "video", ["cobalt", "ytdlp"], fs)) := by
  constructor
  · intro att r k n hk hs hp
    rw [retryLoop, hk]
    simp [hs, hp]
  · intro o url r fs hplat hc hs
    simp only [download, hplat, hc]
    simp [hs]

/-- Witness for `permanent_short_circuit_in_retry_loop` at concrete
inputs: a permanently-classified attempt result stops the loop at
attempt 1, and a failed cobalt call falls through to the engine. -/
theorem permanent_short_circuit_in_retry_loop_witness :
    retryLoop (fun _ => .ok { status := "error", message := "Video unavailable or private" }) 3 1 =
      { status := "error", message := "Video unavailable or private" } ∧
    download orcTiktokAllFail "https://vm.tiktok.com/ZM1/" "video" [] =
      .ok (downloadWithYtdlp orcTiktokAllFail.engine "https://vm.tiktok.com/ZM1/" "video",
        ["cobalt", "ytdlp"], []) := by
  constructor
  · exact permanent_short_circuit_in_retry_loop.1
      (fun _ => .ok { status := "error", message := "Video unavailable or private" })
      { status := "error", message := "Video unavailable or private" } 1 2 rfl
      (by decide) (by decide)
  · exact permanent_short_circuit_in_retry_loop.2 orcTiktokAllFail
      "https://vm.tiktok.com/ZM1/"
      (cobaltDownload cobaltApiFail snaptikFail tikwmFail "video") []
      (by decide) rfl (by decide)

/-- Counterexample to claim C6: a TikTok request with media kind
`photo` is NOT routed straight to the engine — the scraper chain
(Cobalt) is attempted first, as the provider trace records. -/
theorem tiktok_photo_goes_through_cobalt :
    download orcTiktokAllFail "https://vm.tiktok.com/ZM1/" "photo" [] =
      .ok ({ status := "error", message := "Failed after 3 attempts" },
        ["cobalt", "ytdlp"], []) ∧
    ("cobalt" :: "ytdlp" :: []).head? = some "cobalt" := by
  exact ⟨rfl, rfl⟩

/-- Claim C6, amended: only media kind `audio` is special-cased — a
TikTok audio request goes straight to the Blocking Extraction Engine
and no scraper adapter appears in the provider trace; an explicit
`photo` kind is not special-cased and is routed through the scraper
chain first, like video (photo posts are instead auto-detected inside
the engine's video path). -/
theorem tiktok_audio_straight_to_engine :
    ∀ (o : Orc) (url : String) (fs : Fs), detectPlatform url = "tiktok" →
      download o url "audio" fs =
        .ok (downloadWithYtdlp o.engine url "audio", ["ytdlp"], fs) := by
  intro o url fs hplat
  simp [download, hplat]

/-- Witness for `tiktok_audio_straight_to_engine` on a concrete TikTok
audio request. -/
theorem tiktok_audio_straight_to_engine_witness :
    download orcTiktokAllFail "https://vt.tiktok.com/ZS2/" "audio" [] =
      .ok (downloadWithYtdlp orcTiktokAllFail.engine "https://vt.tiktok.com/ZS2/" "audio",
        ["ytdlp"], []) :=
  tiktok_audio_straight_to_engine orcTiktokAllFail "https://vt.tiktok.com/ZS2/" []
    (by decide)

/-- Counterexample to claim C5: when all Facebook scraper adapters and
the engine fail, the Failure surfaced to the caller carries the
Multi-API chain's aggregate message, not the first scraper adapter's
specific message. -/
theorem facebook_failure_message_is_aggregate :
    download orcFacebookAllFail "https://fb.watch/abc/" "video" [] =
      .ok ({ status := "error", message := fbAllFailedMsg },
        ["facebook_api", "ytdlp"], []) ∧
    fbAllFailedMsg ≠ snapsaveFail.message := by
  exact ⟨rfl, by decide⟩

/-- Claim C5, amended: when every Facebook scraper adapter fails, the
Multi-API chain returns one aggregate error message (the individual
adapters' messages are discarded), and when the engine fallback also
fails, the orchestrator surfaces that Multi-API result — preferred
over the engine's failure — to the caller. -/
theorem facebook_all_fail_surfaces_aggregate :
    (∀ a b c : DlResult, a.status ≠ "success" → b.status ≠ "success" →
      c.status ≠ "success" →
      facebookDownload a b c "video" = { status := "error", message := fbAllFailedMsg }) ∧
    (∀ (o : Orc) (url : String) (fs : Fs) (r : DlResult),
      detectPlatform url = "facebook" → o.facebook = .ok r → r.status ≠ "success" →
      (downloadWithYtdlp o.engine url "video").status ≠ "success" →
      download o url "video" fs = .ok (r, ["facebook_api", "ytdlp"], fs)) := by
  constructor
  · intro a b c ha hb hc
    simp [facebookDownload, ha, hb, hc]
  · intro o url fs r hplat hfb hr hy
    have hne : detectPlatform url ≠ "tiktok" := by rw [hplat]; decide
    simp only [download, hplat, hfb]
    simp [hne, hr, hy]

/-- Witness for `facebook_all_fail_surfaces_aggregate` at the concrete
all-fail Facebook run. -/
theorem facebook_all_fail_surfaces_aggregate_witness :
    facebookDownload snapsaveFail savefromFail fbdlFail "video" =
      { status := "error", message := fbAllFailedMsg } ∧
    download orcFacebookAllFail "https://fb.watch/abc/" "video" [] =
      .ok (facebookDownload snapsaveFail savefromFail fbdlFail "video",
        ["facebook_api", "ytdlp"], []) := by
  constructor
  · exact facebook_all_fail_surfaces_aggregate.1 snapsaveFail savefromFail fbdlFail
      (by decide) (by decide) (by decide)
  · exact facebook_all_fail_surfaces_aggregate.2 orcFacebookAllFail
      "https://fb.watch/abc/" []
      (facebookDownload snapsaveFail savefromFail fbdlFail "video")
      (by decide) rfl (by decide) (by decide)

/-- Claim C2 fails on the code: the streaming GET of
`_download_direct_mp4` is not wrapped in try/except (unlike the HEAD
pre-check just above it, and unlike every other provider call), so a
network error mid-stream propagates out of `download` as an exception
instead of a classified failure result — leaving the partial file
behind as well. The spec's contract, which the caller relies on (it
immediately does `result["status"]` with no generic except), is that
`download` never raises; this is the one path that does. -/
theorem pinterest_midstream_error_raises :
    download orcPinterest "https://pin.it/abc1" "video" [] =
      .error (.netError, [("downloads/deadbeef.mp4", 65536)]) := by
  rfl

/-- Counterexample to claim C4: the scraper-adapter file transfer
(`_download_file` of cobalt_api.py / facebook_api.py) aborts when the
running byte counter exceeds 49 MB but returns its failure WITHOUT
deleting the partially-written destination file: 30 MB of partial
output remain on disk. -/
theorem adapter_abort_leaves_partial_file :
    adapterDownloadFile overflowResp "downloads/tiktok_1.mp4" [] =
      (false, [("downloads/tiktok_1.mp4", 30 * 1024 * 1024)]) ∧
    fsGet "downloads/tiktok_1.mp4"
      (adapterDownloadFile overflowResp "downloads/tiktok_1.mp4" []).2 =
      some (30 * 1024 * 1024) := by
  exact ⟨rfl, rfl⟩

theorem streamChunks_abort_cleans {outPath : String} {maxSize : Nat} :
    ∀ (events : List StreamEvent) (total : Nat) (fs : Fs) (r : DlResult) (fs' : Fs),
      streamChunks outPath maxSize events total fs = .ok (some r, fs') →
      fsGet outPath fs' = none := by
  intro events
  induction events with
  | nil => intro total fs r fs' h; exact absurd h (by simp [streamChunks])
  | cons e rest ih =>
    intro total fs r fs' h
    match e with
    | .netErr => exact absurd h (by simp [streamChunks])
    | .chunk 0 => exact ih total fs r fs' h
    | .chunk (n + 1) =>
      rw [streamChunks] at h
      by_cases hgt : maxSize < total + (n + 1)
      · rw [if_pos hgt] at h
        obtain ⟨-, h2⟩ := Prod.mk.injEq .. ▸ Except.ok.injEq .. ▸ h
        rw [← h2]
        exact fsGet_fsErase_same outPath fs
      · rw [if_neg hgt] at h
        exact ih _ _ r fs' h

/-- Claim C4, amended: the deletion-on-abort guarantee holds for the
Direct-Fetch Client only — every Failure returned by
`_download_direct_mp4` (HEAD-too-large, HTTP error, or mid-stream size
abort, which deletes the partial file) leaves no destination file on
disk — whereas the scraper-adapter `_download_file` returns failure on
a mid-stream abort without deleting the partially-written file. -/
theorem direct_fetch_failure_cleans_partial :
    ∀ (o : HttpMedia) (outPath title : String) (fs : Fs) (r : DlResult) (fs' : Fs),
      fsGet outPath fs = none →
      downloadDirectMp4 o outPath title fs = .ok (r, fs') →
      r.status = "error" →
      fsGet outPath fs' = none := by
  intro o outPath title fs r fs' hfresh h hstatus
  rw [downloadDirectMp4] at h
  by_cases hHead : (match o.headContentLength with
    | .error _ => false
    | .ok none => false
    | .ok (some s) => isDigits s && decide (MAX_FILE_SIZE < strToNat s)) = true
  · rw [if_pos hHead] at h
    obtain ⟨-, h2⟩ := Prod.mk.injEq .. ▸ Except.ok.injEq .. ▸ h
    rw [← h2]; exact hfresh
  · rw [if_neg hHead] at h
    by_cases hst : 400 ≤ o.getStatus
    · rw [if_pos hst] at h
      obtain ⟨-, h2⟩ := Prod.mk.injEq .. ▸ Except.ok.injEq .. ▸ h
      rw [← h2]; exact hfresh
    · rw [if_neg hst] at h
      revert h
      match hs : streamChunks outPath MAX_FILE_SIZE o.stream 0 (fsSet outPath 0 fs) with
      | .error e => intro h; exact absurd h (by simp)
      | .ok (some abort, fs₁) =>
        intro h
        obtain ⟨h1, h2⟩ := Prod.mk.injEq .. ▸ Except.ok.injEq .. ▸ h
        rw [← h2]
        exact streamChunks_abort_cleans o.stream 0 (fsSet outPath 0 fs) abort fs₁ hs
      | .ok (none, fs₁) =>
        intro h
        obtain ⟨h1, -⟩ := Prod.mk.injEq .. ▸ Except.ok.injEq .. ▸ h
        rw [← h1] at hstatus
        simp at hstatus

/-- Witness for `direct_fetch_failure_cleans_partial`: the mid-stream
abort of a concrete oversized transfer returns the too-large error and
leaves no destination file. -/
theorem direct_fetch_failure_cleans_partial_witness :
    downloadDirectMp4 singleOverflowMedia "downloads/w.mp4" "t" [] =
      .ok ({ status := "error", message := directTooLargeMsg }, []) ∧
    fsGet "downloads/w.mp4" ([] : Fs) = none :=
  ⟨rfl, direct_fetch_failure_cleans_partial singleOverflowMedia "downloads/w.mp4" "t" []
    { status := "error", message := directTooLargeMsg } [] rfl rfl rfl⟩

theorem classifyDlError_status (msg : String) :
    (classifyDlError msg).status = "error" := by
  unfold classifyDlError
  split_ifs <;> rfl

/-- Counterexample to claim C3: because the audio option build pops the
`max_filesize` cap (downloader.py 328), an audio download may return
Success with a file far larger than the configured maximum — here a
TikTok audio request succeeds with a 100 MB mp3 on disk, above the
49 MB cap, with no cap in the options passed to the extractor. -/
theorem audio_success_can_exceed_max_size :
    download orcBigAudio "https://vm.tiktok.com/ZMa/" "audio" [] =
      .ok ({ status := "success", filePath := some "downloads/abc.mp3",
             title := "Song", duration := 300, uploader := "U" }, ["ytdlp"], []) ∧
    bigAudioRun.fs "downloads/abc.mp3" = some (100 * 1024 * 1024) ∧
    MAX_FILE_SIZE < 100 * 1024 * 1024 ∧
    getKey "max_filesize" audioOptsBig = none := by
  refine ⟨rfl, rfl, by decide, ?_⟩
  exact getKey_maxfs_audio_opts "https://vm.tiktok.com/ZMa/" false none

/-- Claim C3, amended: every Success of the engine's blocking download
names a path that exists on disk at the moment of return (the source
verifies existence, searching sibling extensions and the
newest-recent-file fallback first); and whenever the option set passed
to the extractor carries the `max_filesize` cap and the extractor
honours it, the Success file's size is at or below the cap. The cap is
present in the options built for video downloads, but it is
deliberately removed from audio option sets, so for audio only
existence — not the size bound — is guaranteed. -/
theorem success_path_exists_and_size_capped :
    (∀ (opts : ODict) (run : YdlRun),
      (∀ p, run.latestRecent = some p → (run.fs p).isSome) →
      (downloadSync opts run).status = "success" →
      ∃ p, (downloadSync opts run).filePath = some p ∧ (run.fs p).isSome) ∧
    (∀ (opts : ODict) (run : YdlRun) (cap : Nat),
      getKey "max_filesize" opts = some (.n cap) →
      (∀ p sz, run.fs p = some sz → sz ≤ cap) →
      (∀ p, run.latestRecent = some p → (run.fs p).isSome) →
      (downloadSync opts run).status = "success" →
      ∃ p sz, (downloadSync opts run).filePath = some p ∧
        run.fs p = some sz ∧ sz ≤ cap) ∧
    (∀ (url : String) (cf : Option String),
      getKey "max_filesize" (getOpts "video" url false cf) = some (.n MAX_FILE_SIZE)) ∧
    (∀ (url : String) (co : Bool) (cf : Option String),
      getKey "max_filesize" (getOpts "audio" url co cf) = none) := by
  have hFound : ∀ (opts : ODict) (run : YdlRun),
      (∀ p, run.latestRecent = some p → (run.fs p).isSome) →
      ∀ f, resolveFound opts run = some f → (run.fs f).isSome := by
    intro opts run hlat f h
    unfold resolveFound at h
    dsimp only at h
    by_cases hex : (run.fs (resolveFname opts run)).isSome = true
    · rw [if_pos hex] at h
      exact Option.some.inj h ▸ hex
    · rw [if_neg hex] at h
      revert h
      match hfind : ["mp3", "mp4", "m4a", "opus", "webm"].find?
          (fun e => (run.fs (splitExtBase (resolveFname opts run) ++ "." ++ e)).isSome) with
      | some e =>
        intro h
        have he : splitExtBase (resolveFname opts run) ++ "." ++ e = f :=
          Option.some.inj h
        have hp := List.find?_some hfind
        rw [he] at hp
        exact hp
      | none =>
        intro h
        exact hlat f h
  have hMain : ∀ (opts : ODict) (run : YdlRun),
      (∀ p, run.latestRecent = some p → (run.fs p).isSome) →
      (downloadSync opts run).status = "success" →
      ∃ p, (downloadSync opts run).filePath = some p ∧ (run.fs p).isSome := by
    intro opts run hlat hsucc
    have key : ∀ r, downloadSync opts run = r → r.status = "success" →
        ∃ p, r.filePath = some p ∧ (run.fs p).isSome := by
      intro r hr hs
      unfold downloadSync at hr
      match hout : run.outcome with
      | .dlError msg =>
        rw [hout] at hr
        dsimp only at hr
        subst hr
        rw [classifyDlError_status] at hs
        exact absurd hs (by decide)
      | .exc msg =>
        rw [hout] at hr
        dsimp only at hr
        subst hr
        simp at hs
      | .info none =>
        rw [hout] at hr
        dsimp only at hr
        subst hr
        simp at hs
      | .info (some i) =>
        rw [hout] at hr
        dsimp only at hr
        revert hr
        match hfound : resolveFound opts run with
        | none =>
          intro hr
          dsimp only at hr
          subst hr
          simp at hs
        | some f =>
          intro hr
          dsimp only at hr
          subst hr
          exact ⟨f, rfl, hFound opts run hlat f hfound⟩
    exact key (downloadSync opts run) rfl hsucc
  refine ⟨hMain, ?_, getKey_maxfs_video_opts, getKey_maxfs_audio_opts⟩
  intro opts run cap hcapOpt hcap hlat hsucc
  obtain ⟨p, hp, hpsome⟩ := hMain opts run hlat hsucc
  obtain ⟨sz, hsz⟩ := Option.isSome_iff_exists.mp hpsome
  exact ⟨p, sz, hp, hsz, hcap p sz hsz⟩

/-- Witness for `success_path_exists_and_size_capped`: a concrete
successful run yields an existing path. -/
theorem success_path_exists_and_size_capped_witness :
    ∃ p, (downloadSync [] smallRun).filePath = some p ∧
      (smallRun.fs p).isSome :=
  success_path_exists_and_size_capped.1 [] smallRun
    (fun _ h => Option.noConfusion h) rfl

theorem splitFirst_not_mem {c : Char} :
    ∀ {l : List Char}, c ∉ l → splitFirst c l = (l, none) := by
  intro l h
  induction l with
  | nil => rfl
  | cons a rest ih =>
    have hne : a ≠ c := fun hac => h (hac ▸ List.mem_cons_self a rest)
    have hrest : c ∉ rest := fun hr => h (List.mem_cons_of_mem a hr)
    simp [splitFirst, hne, ih hrest]

theorem splitFirst_append_no {c : Char} :
    ∀ {l₁ : List Char}, c ∉ l₁ → ∀ (l₂ : List Char),
      splitFirst c (l₁ ++ l₂) = (l₁ ++ (splitFirst c l₂).1, (splitFirst c l₂).2) := by
  intro l₁ h
  induction l₁ with
  | nil => intro l₂; rfl
  | cons a rest ih =>
    intro l₂
    have hne : a ≠ c := fun hac => h (hac ▸ List.mem_cons_self a rest)
    have hrest : c ∉ rest := fun hr => h (List.mem_cons_of_mem a hr)
    simp [splitFirst, hne, ih hrest]

theorem splitFirst_append_first {c : Char} {l₁ : List Char} (h : c ∉ l₁)
    (l₂ : List Char) : splitFirst c (l₁ ++ c :: l₂) = (l₁, some l₂) := by
  rw [splitFirst_append_no h (c :: l₂)]
  simp [splitFirst]

theorem takeWhile_append_middle {p : Char → Bool} :
    ∀ (l₁ : List Char) {x : Char} (l₂ : List Char),
      (∀ a ∈ l₁, p a = true) → p x = false →
      (l₁ ++ x :: l₂).takeWhile p = l₁ := by
  intro l₁
  induction l₁ with
  | nil => intro x l₂ _ hx; simp [List.takeWhile_cons, hx]
  | cons a rest ih =>
    intro x l₂ hall hx
    have ha : p a = true := hall a (List.mem_cons_self a rest)
    have hrest : ∀ b ∈ rest, p b = true := fun b hb => hall b (List.mem_cons_of_mem a hb)
    simp [List.takeWhile_cons, ha, ih l₂ hrest hx]

theorem dropWhile_append_middle {p : Char → Bool} :
    ∀ (l₁ : List Char) {x : Char} (l₂ : List Char),
      (∀ a ∈ l₁, p a = true) → p x = false →
      (l₁ ++ x :: l₂).dropWhile p = x :: l₂ := by
  intro l₁
  induction l₁ with
  | nil => intro x l₂ _ hx; simp [List.dropWhile_cons, hx]
  | cons a rest ih =>
    intro x l₂ hall hx
    have ha : p a = true := hall a (List.mem_cons_self a rest)
    have hrest : ∀ b ∈ rest, p b = true := fun b hb => hall b (List.mem_cons_of_mem a hb)
    simp [List.dropWhile_cons, ha, ih l₂ hrest hx]

theorem schemeSplit_watch (tail : List Char) :
    schemeSplit ("https://www.youtube.com/watch?v=".data ++ tail) =
      ("https".data, "//www.youtube.com/watch?v=".data ++ tail) := by
  have e1 : "https://www.youtube.com/watch?v=".data ++ tail =
      "https".data ++ ':' :: ("//www.youtube.com/watch?v=".data ++ tail) := rfl
  rw [schemeSplit, e1, splitFirst_append_first (by decide)]
  have hc : "https".data ≠ [] ∧ ("https".data.headD ' ').isAlpha = true ∧
      "https".data.all isSchemeChar = true := by decide
  dsimp only
  rw [if_pos hc]
  have hlow : lowerL "https".data = "https".data := by decide
  rw [hlow]

theorem netlocSplit_watch (tail : List Char) :
    netlocSplit ("//www.youtube.com/watch?v=".data ++ tail) =
      ("www.youtube.com".data, "/watch?v=".data ++ tail) := by
  have e2 : "//www.youtube.com/watch?v=".data ++ tail =
      '/' :: '/' :: ("www.youtube.com".data ++ '/' :: ("watch?v=".data ++ tail)) := rfl
  have hlm : leadMatch "//".data
      ('/' :: '/' :: ("www.youtube.com".data ++ '/' :: ("watch?v=".data ++ tail))) = true := rfl
  rw [netlocSplit, e2, if_pos hlm]
  show (("www.youtube.com".data ++ '/' :: ("watch?v=".data ++ tail)).takeWhile _,
    ("www.youtube.com".data ++ '/' :: ("watch?v=".data ++ tail)).dropWhile _) = _
  rw [takeWhile_append_middle "www.youtube.com".data ("watch?v=".data ++ tail)
      (by decide) (by decide),
    dropWhile_append_middle "www.youtube.com".data ("watch?v=".data ++ tail)
      (by decide) (by decide)]
  rfl

theorem fragSplit_watch (tail : List Char) :
    (fragSplit ("/watch?v=".data ++ tail)).1 =
      "/watch?v=".data ++ (splitFirst '#' tail).1 := by
  rw [fragSplit, splitFirst_append_no (by decide)]
  cases (splitFirst '#' tail).2 <;> rfl

theorem querySplit_watch (t1 : List Char) :
    querySplit ("/watch?v=".data ++ t1) = ("/watch".data, "v=".data ++ t1) := by
  have e4 : "/watch?v=".data ++ t1 =
      "/watch".data ++ '?' :: ("v=".data ++ t1) := rfl
  rw [querySplit, e4, splitFirst_append_first (by decide)]

/-- The components of a rebuilt `watch?v=` URL are pinned by its
concrete prefix, for every tail: scheme `https`, host
`www.youtube.com`, path `/watch`. -/
theorem urlsplitM_watch (tail : List Char) :
    urlsplitM ("https://www.youtube.com/watch?v=".data ++ tail) =
      ⟨"https".data, "www.youtube.com".data, "/watch".data,
        "v=".data ++ (splitFirst '#' tail).1,
        (fragSplit ("/watch?v=".data ++ tail)).2⟩ := by
  unfold urlsplitM
  rw [schemeSplit_watch]
  dsimp only
  rw [netlocSplit_watch]
  dsimp only
  rw [fragSplit_watch, querySplit_watch]

/-- Every URL of the rebuilt `watch?v=` shape is a fixed point of the
normalizer: its path is `/watch`, which does not start with
`/shorts/`. -/
theorem normCore_watch (tail : List Char) :
    normCore ("https://www.youtube.com/watch?v=".data ++ tail) =
      "https://www.youtube.com/watch?v=".data ++ tail := by
  unfold normCore
  rw [urlsplitM_watch]
  dsimp only
  rw [if_neg (by decide)]

theorem normCore_idem (l : List Char) : normCore (normCore l) = normCore l := by
  by_cases hcond : (endMatch "youtube.com".data (hostnameM (urlsplitM l).netloc) &&
      leadMatch "/shorts/".data (urlsplitM l).path) = true
  · by_cases hv : ((urlsplitM l).path.drop 8).takeWhile (· ≠ '/') = []
    · have hl : normCore l = l := by
        unfold normCore
        dsimp only
        rw [if_pos hcond, if_pos hv]
      rw [hl]
      exact hl
    · have hl : normCore l = "https://www.youtube.com/watch?v=".data ++
          ((((urlsplitM l).path.drop 8).takeWhile (· ≠ '/')) ++
            siSuffix (qsFirst "si".data (urlsplitM l).query)) := by
        unfold normCore
        dsimp only
        rw [if_pos hcond, if_neg hv, List.append_assoc]
      rw [hl, normCore_watch]
  · have hl : normCore l = l := by
      unfold normCore
      dsimp only
      rw [if_neg hcond]
    rw [hl]
    exact hl

/-- Claim C9: URL normalization is idempotent — a second application
changes nothing; in particular a YouTube Shorts URL rewritten to the
`watch?v=` form is left unchanged by a second application, since the
rebuilt URL's path `/watch` never starts with `/shorts/`. -/
theorem normalize_youtube_idempotent (url : String) :
    normalizeYoutubeUrl (normalizeYoutubeUrl url) = normalizeYoutubeUrl url := by
  unfold normalizeYoutubeUrl
  dsimp only
  rw [normCore_idem]

end TikTokBot
